import Mathlib

/-!
Shallow embedding of `custom_components/volkswagencarnet/__init__.py`
(a Home Assistant integration for Volkswagen WeConnect) and proofs about
its documented behaviour.

Conventions of the embedding:
* Python `datetime` values are modelled as integer timestamps in seconds;
  `timedelta.days` is floor division by 86400 (`Int.fdiv`), matching
  Python's normalisation of `timedelta`.
* Async functions with network effects take the results of those effects
  as explicit parameters (`Option Bool`: `none` models the call raising an
  exception, `some b` models it returning `b`).
* Python values that may be several runtime types (service-call payload
  entries, the `names` configuration) are modelled as inductive sum types.
* A Python function that can raise is modelled with an explicit result
  constructor for the raised exception.
-/

namespace VWCarnet

/-! ### Coordinator state and `report_request`
Embeds `VolkswagenCoordinator.report_request` (lines 499-529).
Mutable coordinator fields touched by it: `report_last_updated` and the
connection's `logged_in` flag. -/

/-- Mutable coordinator state relevant to `report_request`:
`report_last_updated` (initially `None`) and the connection's
`logged_in` flag. -/
structure CoordState where
  report_last_updated : Option Int
  logged_in : Bool
deriving DecidableEq, Repr

/-- Outcome of one `report_request` call, distinguishing each return path
of the Python function. -/
inductive ReportOutcome
  /-- Returned at the interval gate: `days_since_last_update < report_interval`. -/
  | suppressed
  /-- Returned after `doLogin()` left the connection logged out. -/
  | loginFailed
  /-- Returned after `vehicle.request_report()` returned falsy. -/
  | reportFailed
  /-- An exception was raised inside the `try` block and swallowed by the
  bare `except: pass`. -/
  | exnSwallowed
  /-- The report was requested successfully and `report_last_updated` set. -/
  | issued
deriving DecidableEq, Repr

/-- Embeds the gate computation of `report_request`:
`days_since_last_update = 1` when `report_last_updated` was never set,
else `(datetime.now() - self.report_last_updated).days`. -/
def daysSinceLastUpdate (now : Int) (last : Option Int) : Int :=
  match last with
  | none => 1
  | some t => Int.fdiv (now - t) 86400

/-- Embeds `VolkswagenCoordinator.report_request`.

`report_interval` is `entry.options.get(CONF_REPORT_SCAN_INTERVAL, DEFAULT_REPORT_UPDATE_INTERVAL)`;
`now` is the value of `datetime.now()` during this call;
`loginResult` models `await self.connection.doLogin()` followed by reading
`self.connection.logged_in` (`none` = the call raised, `some b` = the flag
is `b` afterwards); `reportResult` models `await vehicle.request_report()`
(`none` = raised, `some b` = returned `b`).
Returns the updated coordinator state and which return path was taken. -/
def report_request (report_interval : Int) (now : Int)
    (loginResult : Option Bool) (reportResult : Option Bool)
    (st : CoordState) : CoordState × ReportOutcome :=
  if daysSinceLastUpdate now st.report_last_updated < report_interval then
    (st, .suppressed)
  else if st.logged_in then
    match reportResult with
    | none => (st, .exnSwallowed)
    | some false => (st, .reportFailed)
    | some true => ({ st with report_last_updated := some now }, .issued)
  else
    match loginResult with
    | none => (st, .exnSwallowed)
    | some false => ({ st with logged_in := false }, .loginFailed)
    | some true =>
      match reportResult with
      | none => ({ st with logged_in := true }, .exnSwallowed)
      | some false => ({ st with logged_in := true }, .reportFailed)
      | some true =>
        ({ st with logged_in := true, report_last_updated := some now }, .issued)

/-! ### Unit-conversion configuration
Embeds `get_convert_conf` (lines 247-252) and the `convert_conf`
resolution in `VolkswagenCoordinator._async_update_data` (lines 445-448). -/

/-- Modelled from the spec: the string constants live in `const.py`, which
is not part of the provided sources; the spec names the modes
"Scandinavian miles" / "no conversion" / imperial. Value of
`CONF_SCANDINAVIAN_MILES`. -/
def CONF_SCANDINAVIAN_MILES : String := "scandinavian_miles"

/-- Modelled from the spec: value of `CONF_NO_CONVERSION` from `const.py`
(the "no conversion" mode). -/
def CONF_NO_CONVERSION : String := "no_conversion"

/-- Modelled from the spec: value of `CONF_IMPERIAL_UNITS` from `const.py`
(the imperial mode compared against in `_async_update_data`). -/
def CONF_IMPERIAL_UNITS : String := "imperial_units"

/-- Configuration slice of a `ConfigEntry` consulted by the conversion
logic: the `convert` and `scandinavian_miles` keys of `entry.options` and
`entry.data` (`none` = key absent). -/
structure ConvertEntry where
  options_convert : Option String
  data_convert : Option String
  options_scandinavian_miles : Option Bool
  data_scandinavian_miles : Option Bool
deriving DecidableEq, Repr

/-- Embeds `get_convert_conf`: returns `CONF_SCANDINAVIAN_MILES` when
`entry.options.get(CONF_SCANDINAVIAN_MILES, entry.data.get(CONF_SCANDINAVIAN_MILES, False))`
is truthy, else `CONF_NO_CONVERSION`. -/
def get_convert_conf (e : ConvertEntry) : String :=
  if e.options_scandinavian_miles.getD (e.data_scandinavian_miles.getD false) then
    CONF_SCANDINAVIAN_MILES
  else
    CONF_NO_CONVERSION

/-- Embeds the resolution in `_async_update_data`:
`convert_conf = entry.options.get(CONF_CONVERT, entry.data.get(CONF_CONVERT, get_convert_conf(entry)))`. -/
def resolveConvertConf (e : ConvertEntry) : String :=
  e.options_convert.getD (e.data_convert.getD (get_convert_conf e))

/-! ### Vehicle selection
Embeds `VolkswagenCoordinator.update` (lines 484-497) together with the
`self.vin = entry.data[CONF_VEHICLE].upper()` initialisation (line 419). -/

/-- A vehicle from the client library, reduced to the field read by
`update`: its VIN. -/
structure VehicleM where
  vin : String
deriving DecidableEq, Repr

/-- Python `str.upper()` / `str.lower()`, modelled characterwise (for the
ASCII VINs and configuration keys this integration compares, this agrees
with Python's casefolding). `String.toLower` itself is avoided only
because its `mapAux` recursion does not reduce in the kernel. -/
def pyUpper (s : String) : String :=
  ⟨s.data.map Char.toUpper⟩

/-- Python `str.lower()`, characterwise; see `pyUpper`. -/
def pyLower (s : String) : String :=
  ⟨s.data.map Char.toLower⟩

/-- Embeds line 419: `self.vin = entry.data[CONF_VEHICLE].upper()`. -/
def coordinatorVin (configuredVin : String) : String :=
  pyUpper configuredVin

/-- Embeds `VolkswagenCoordinator.update`. `updateOk` is the result of
`await self.connection.update()`; `vehicles` is `self.connection.vehicles`;
`selfVin` is the coordinator's `self.vin`. Returns the first vehicle with
`vehicle.vin.upper() == self.vin`, or `none` (both when the upstream update
fails and when no vehicle matches). -/
def coordinatorUpdate (updateOk : Bool) (vehicles : List VehicleM)
    (selfVin : String) : Option VehicleM :=
  if updateOk then
    vehicles.find? (fun v => pyUpper v.vin == selfVin)
  else
    none

/-! ### Data holder: `vehicle_name`
Embeds `VolkswagenData.vehicle_name` (lines 277-287). `self.names` is
`self.config.get(CONF_NAME, None)`: a string, a mapping, or `None`. -/

/-- The `names` configuration: a plain string, a VIN-to-name mapping, or
absent (`None`). -/
inductive NamesConf
  | nothing
  | str (s : String)
  | map (m : List (String × String))
deriving DecidableEq, Repr

/-- Result of `vehicle_name`: a returned string, or a raised `TypeError`
(from evaluating `x in None`). -/
inductive NameResult
  | ok (s : String)
  | typeError
deriving DecidableEq, Repr

/-- Embeds `VolkswagenData.vehicle_name`. The vehicle's VIN is modelled as
a string, the empty string standing for a falsy/unknown identifier.
When `self.names` is a string it is returned for every vehicle. Otherwise
the code evaluates `vehicle.vin and vehicle.vin.lower() in self.names`:
with a truthy VIN and `names = None`, the membership test raises
`TypeError`; with a mapping it returns the mapped name on a key hit, the
raw VIN on a miss, and the empty string when no VIN is known. -/
def vehicle_name (names : NamesConf) (vin : String) : NameResult :=
  match names with
  | .str s => .ok s
  | .map m =>
    if vin = "" then .ok ""
    else
      match m.lookup (pyLower vin) with
      | some name => .ok name
      | none => .ok vin
  | .nothing =>
    if vin = "" then .ok ""
    else .typeError

/-! ### Data holder: instrument lookup
Embeds `VolkswagenData.instrument` (lines 266-275). -/

/-- An instrument from the dashboard library, reduced to the fields the
integration reads: the owning vehicle's VIN, the component, the attribute
key, the icon and the state. -/
structure InstrumentM where
  vehicleVin : String
  component : String
  attr : String
  icon : String
  state : Option Int
deriving DecidableEq, Repr

/-- Result of `VolkswagenData.instrument`: a matching instrument, `None`,
or a raised `TypeError` (from iterating over `coordinator.data` while it
is still `None`). -/
inductive InstrLookup
  | found (i : InstrumentM)
  | notFound
  | typeError
deriving DecidableEq, Repr

/-- Exact-triple match used by the generator expression in
`VolkswagenData.instrument`. -/
def instrMatches (vin component attr : String) (i : InstrumentM) : Bool :=
  i.vehicleVin == vin && i.component == component && i.attr == attr

/-- Embeds `VolkswagenData.instrument`. `coordinator` models
`self.coordinator`: `none` when no coordinator exists (the scan then runs
over the static `self.instruments`, passed as `staticInstruments`),
`some none` when a coordinator exists but its `data` is still unset
(`None` — iterating it raises `TypeError`), and `some (some l)` when the
coordinator's current snapshot is the list `l`. -/
def dataInstrument (coordinator : Option (Option (List InstrumentM)))
    (staticInstruments : List InstrumentM)
    (vin component attr : String) : InstrLookup :=
  match coordinator with
  | none =>
    match staticInstruments.find? (instrMatches vin component attr) with
    | some i => .found i
    | none => .notFound
  | some none => .typeError
  | some (some snapshot) =>
    match snapshot.find? (instrMatches vin component attr) with
    | some i => .found i
    | none => .notFound

/-! ### Entity adapter: `icon` and `unique_id`
Embeds `VolkswagenEntity.icon` (lines 341-347) and
`VolkswagenEntity.unique_id` (lines 409-412). -/

/-- Construction-time fields of a `VolkswagenEntity`, together with the
data holder's current instrument snapshot (the state replaced wholesale on
every refresh cycle, through which `self.instrument` is re-resolved). -/
structure EntityM where
  vin : String
  component : String
  attributeKey : String
  snapshot : List InstrumentM
deriving DecidableEq, Repr

/-- Embeds `VolkswagenEntity.unique_id`:
the f-string interpolating `self.vin`, `self.component` and
`self.attribute` (field `attributeKey` here, since `attribute` is reserved in Lean), joined by hyphens. -/
def entityUniqueId (e : EntityM) : String :=
  e.vin ++ "-" ++ e.component ++ "-" ++ e.attributeKey

/-- Embeds `VolkswagenEntity.icon` for an entity whose `self.instrument`
resolved to an instrument with attribute key `attr`, state `state` and own
icon `instrIcon`, on a vehicle with charging flag `charging`.
`iconForBatteryLevel` is Home Assistant's external
`icon_for_battery_level` helper, kept abstract: the code calls it with
`battery_level=self.instrument.state, charging=self.vehicle.charging`
exactly when `self.instrument.attr in ["battery_level", "charging"]`, and
returns `self.instrument.icon` otherwise. -/
def entityIcon (iconForBatteryLevel : Option Int → Bool → String)
    (attr : String) (state : Option Int) (charging : Bool)
    (instrIcon : String) : String :=
  if attr = "battery_level" ∨ attr = "charging" then
    iconForBatteryLevel state charging
  else
    instrIcon

/-! ### Command-service schemas
Embeds the four `vol.Schema` declarations (lines 62-108). Home Assistant
validates a service-call payload against the schema before the handler is
dispatched, so a validation failure rejects the call before any network
interaction. All four schemas carry `extra=vol.ALLOW_EXTRA`, so keys
outside the declared fields pass through unchecked. -/

/-- A service-call payload value: a string, an integer or a boolean. -/
inductive SVal
  | str (s : String)
  | int (n : Int)
  | bool (b : Bool)
deriving DecidableEq, Repr

/-- Coercion performed by Home Assistant's `cv.string` validator, which
stringifies non-string scalars (and only raises on `None`, templates,
lists and dicts, none of which `SVal` contains). -/
def cvString : SVal → String
  | .str s => s
  | .int n => toString n
  | .bool b => if b then "True" else "False"

/-- Validator `vol.All(cv.string, vol.Length(min=32, max=32))` applied to
`device_id` in every schema: the stringified value must have exactly 32
characters. -/
def deviceIdOk (v : SVal) : Bool :=
  (cvString v).length == 32

/-- Coercion performed by `vol.Coerce(int)` inside `cv.positive_int`:
integers pass through, booleans coerce to 0/1, decimal strings parse, and
anything unparsable fails. -/
def coerceInt (v : SVal) : Option Int :=
  match v with
  | .int n => some n
  | .bool b => some (if b then 1 else 0)
  | .str s => s.toInt?

/-- Validator `cv.positive_int` (`Coerce(int)` then `Range(min=0)`). -/
def positiveIntOk (v : SVal) : Bool :=
  match coerceInt v with
  | some n => 0 ≤ n
  | none => false

/-- Validator `vol.All(cv.positive_int, vol.Range(min_included=lo, max_included=hi))`
used by the `charging_profile` and `profile_id` fields. -/
def positiveIntInRange (lo hi : Int) (v : SVal) : Bool :=
  match coerceInt v with
  | some n => 0 ≤ n && lo ≤ n && n ≤ hi
  | none => false

/-- Validator `vol.In(xs)` for a string enumeration. -/
def inStrs (xs : List String) (v : SVal) : Bool :=
  match v with
  | .str s => xs.contains s
  | _ => false

/-- Validator `vol.Any(cv.string, cv.positive_int)` for the two
target-temperature fields: `cv.string` already accepts every `SVal`, so
the disjunction always succeeds. -/
def stringOrPositiveIntOk (_ : SVal) : Bool :=
  true

/-- Validator `vol.In(xs)` for an integer enumeration. -/
def inInts (xs : List Int) (v : SVal) : Bool :=
  match v with
  | .int n => xs.contains n
  | _ => false

/-- Validator `vol.In` over the mixed int/string enumeration used by the
`max_current` and `charge_max_current` fields. -/
def inIntsOrStrs (ns : List Int) (ss : List String) (v : SVal) : Bool :=
  match v with
  | .int n => ns.contains n
  | .str s => ss.contains s
  | _ => false

/-- Validator `cv.boolean`: accepts booleans, the usual truthy/falsy
strings and 0/1 integers. -/
def booleanOk (v : SVal) : Bool :=
  match v with
  | .bool _ => true
  | .int n => n == 0 || n == 1
  | .str s =>
    ["1", "true", "yes", "on", "enable", "0", "false", "no", "off", "disable"].contains
      s.toLower

/-- Validator `vol.All(cv.string, vol.Length(min=7, max=7))` for the
`weekday_mask` field. -/
def weekdayMaskOk (v : SVal) : Bool :=
  (cvString v).length == 7

/-- One declared schema field: its key, whether it is `vol.Required`
(rather than `vol.Optional`), and its value validator. -/
structure SchemaField where
  key : String
  required : Bool
  check : SVal → Bool

/-- Voluptuous validation of a payload against a schema with
`extra=vol.ALLOW_EXTRA`: every `Required` key must be present, every
declared key that is present must satisfy its validator, and undeclared
keys are ignored. Returns `true` when the call is accepted. -/
def schemaAccepts (schema : List SchemaField) (payload : List (String × SVal)) : Bool :=
  schema.all fun f =>
    match payload.lookup f.key with
    | none => !f.required
    | some v => f.check v

/-- Embeds `SERVICE_SET_TIMER_BASIC_SETTINGS_SCHEMA` (lines 62-70): all
four fields `vol.Optional`, including `device_id`. -/
def SERVICE_SET_TIMER_BASIC_SETTINGS_SCHEMA : List SchemaField :=
  [⟨"device_id", false, deviceIdOk⟩,
   ⟨"min_level", false, inInts [0, 10, 20, 30, 40, 50, 60, 70, 80, 90, 100]⟩,
   ⟨"target_temperature_celsius", false, stringOrPositiveIntOk⟩,
   ⟨"target_temperature_fahrenheit", false, stringOrPositiveIntOk⟩]

/-- Embeds `SERVICE_SET_CHARGER_MAX_CURRENT_SCHEMA` (lines 72-78): both
fields `vol.Optional`. -/
def SERVICE_SET_CHARGER_MAX_CURRENT_SCHEMA : List SchemaField :=
  [⟨"device_id", false, deviceIdOk⟩,
   ⟨"max_current", false,
    inIntsOrStrs [0, 5, 10, 13, 16, 32] ["0", "5", "10", "13", "16", "32", "max"]⟩]

/-- Embeds `SERVICE_UPDATE_SCHEDULE_SCHEMA` (lines 80-92): `device_id` and
`timer_id` are `vol.Required`, the rest `vol.Optional`. -/
def SERVICE_UPDATE_SCHEDULE_SCHEMA : List SchemaField :=
  [⟨"device_id", true, deviceIdOk⟩,
   ⟨"timer_id", true, inInts [1, 2, 3]⟩,
   ⟨"charging_profile", false, positiveIntInRange 1 10⟩,
   ⟨"enabled", false, booleanOk⟩,
   ⟨"frequency", false, inStrs ["cyclic", "single"]⟩,
   ⟨"departure_time", false, fun _ => true⟩,
   ⟨"departure_datetime", false, fun _ => true⟩,
   ⟨"weekday_mask", false, weekdayMaskOk⟩]

/-- Embeds `SERVICE_UPDATE_PROFILE_SCHEMA` (lines 94-108): `device_id`,
`profile_id` and `profile_name` are `vol.Required`, the rest
`vol.Optional`. -/
def SERVICE_UPDATE_PROFILE_SCHEMA : List SchemaField :=
  [⟨"device_id", true, deviceIdOk⟩,
   ⟨"profile_id", true, positiveIntInRange 1 10⟩,
   ⟨"profile_name", true, fun _ => true⟩,
   ⟨"charging", false, booleanOk⟩,
   ⟨"climatisation", false, booleanOk⟩,
   ⟨"target_level", false, inInts [0, 10, 20, 30, 40, 50, 60, 70, 80, 90, 100]⟩,
   ⟨"charge_max_current", false,
    inIntsOrStrs [0, 5, 10, 13, 16, 32] ["0", "5", "10", "13", "16", "32"]⟩,
   ⟨"night_rate", false, booleanOk⟩,
   ⟨"night_rate_start", false, fun _ => true⟩,
   ⟨"night_rate_end", false, fun _ => true⟩]

/-! ## Theorems -/

/-- Helper: elapsed time strictly below `I` days gives a day count
strictly below `I`. -/
theorem daysSinceLastUpdate_lt_of_sub_lt (now t I : Int)
    (h : now - t < I * 86400) :
    daysSinceLastUpdate now (some t) < I := by
  have h86 : (0 : Int) < 86400 := by norm_num
  have : (now - t).fdiv 86400 = (now - t) / 86400 := Int.fdiv_eq_ediv _ (by norm_num)
  simpa [daysSinceLastUpdate, this] using (Int.ediv_lt_iff_lt_mul h86).2 h

/-- C1 (amended): with `report_last_updated` never set, the gate counts
exactly 1 elapsed day, so the first-ever call is suppressed precisely when
the configured interval exceeds 1 day (rather than always proceeding); and
a call made strictly less than the configured interval (in days) after a
successful request (which stored `some t`) is suppressed, leaving the
state unchanged and issuing nothing. -/
theorem report_request_gate (report_interval now : Int)
    (loginResult reportResult : Option Bool) (st : CoordState) :
    (st.report_last_updated = none →
      ((report_request report_interval now loginResult reportResult st).2 =
          .suppressed ↔ 1 < report_interval)) ∧
    (∀ t, st.report_last_updated = some t →
      now - t < report_interval * 86400 →
      report_request report_interval now loginResult reportResult st =
        (st, .suppressed)) := by
  constructor
  · intro hnone
    by_cases hg : daysSinceLastUpdate now st.report_last_updated < report_interval
    · have : (1 : Int) < report_interval := by
        simpa [daysSinceLastUpdate, hnone] using hg
      simp [report_request, hg, this]
    · have h1 : ¬ (1 : Int) < report_interval := by
        simpa [daysSinceLastUpdate, hnone] using hg
      cases hli : st.logged_in <;>
        rcases loginResult with _ | lb <;>
        rcases reportResult with _ | rb <;>
        (try cases lb) <;> (try cases rb) <;>
        simp [report_request, hg, h1, hli]
  · intro t ht hlt
    have hg : daysSinceLastUpdate now st.report_last_updated < report_interval := by
      rw [ht]; exact daysSinceLastUpdate_lt_of_sub_lt now t report_interval hlt
    simp [report_request, hg]

/-- Witness for `report_request_gate`: a first call with interval 1
proceeds (is not suppressed), and a call 86399 seconds after a stored
timestamp with a 3-day interval is suppressed with unchanged state. -/
theorem report_request_gate_witness :
    ((report_request 1 5 none (some true) ⟨none, true⟩).2 =
        .suppressed ↔ (1 : Int) < 1) ∧
    report_request 3 86399 none none ⟨some 0, true⟩ =
      (⟨some 0, true⟩, .suppressed) :=
  ⟨(report_request_gate 1 5 none (some true) ⟨none, true⟩).1 rfl,
   (report_request_gate 3 86399 none none ⟨some 0, true⟩).2 0 rfl (by norm_num)⟩

/-- C1 counterexample: a first-ever call (`report_last_updated = None`)
with configured interval 2 days returns at the gate without issuing a
report and without touching any state, contradicting "the first-ever call
proceeds regardless of the configured report interval". -/
theorem report_request_first_call_suppressed :
    report_request 2 0 (some true) (some true) ⟨none, false⟩ =
      (⟨none, false⟩, .suppressed) := by decide

/-- C10: `report_last_updated` changes only on the success path. On every
other outcome — gate suppression, failed re-login, report submission
returning failure, or a swallowed exception — it keeps exactly its
previous value, and on success it is set to the current time. -/
theorem report_last_updated_only_on_success (report_interval now : Int)
    (loginResult reportResult : Option Bool) (st : CoordState) :
    ((report_request report_interval now loginResult reportResult st).2 ≠
        .issued →
      (report_request report_interval now loginResult
          reportResult st).1.report_last_updated = st.report_last_updated) ∧
    ((report_request report_interval now loginResult reportResult st).2 =
        .issued →
      (report_request report_interval now loginResult
          reportResult st).1.report_last_updated = some now) := by
  obtain ⟨last, li⟩ := st
  by_cases hg : daysSinceLastUpdate now last < report_interval
  · simp [report_request, hg]
  · cases li <;>
      rcases loginResult with _ | lb <;>
      rcases reportResult with _ | rb <;>
      (try cases lb) <;> (try cases rb) <;>
      simp [report_request, hg]

/-- Witness for `report_last_updated_only_on_success`: a concrete
successful call stores the current time, and a concrete suppressed call
keeps the old value. -/
theorem report_last_updated_only_on_success_witness :
    (report_request 1 7 none (some true)
        ⟨none, true⟩).1.report_last_updated = some 7 ∧
    (report_request 5 100 none (some true)
        ⟨some 99, true⟩).1.report_last_updated = some 99 :=
  ⟨(report_last_updated_only_on_success 1 7 none (some true)
      ⟨none, true⟩).2 (by decide),
   (report_last_updated_only_on_success 5 100 none (some true)
      ⟨some 99, true⟩).1 (by decide)⟩

/-- C3: the unit-conversion mode is resolved with precedence — an
explicitly set `convert` option wins (options first, then data); otherwise
a truthy legacy Scandinavian-miles boolean (options, then data) selects
the Scandinavian-miles mode; otherwise the mode is no conversion. -/
theorem convert_conf_precedence (e : ConvertEntry) :
    (∀ c, e.options_convert = some c → resolveConvertConf e = c) ∧
    (e.options_convert = none →
      ∀ c, e.data_convert = some c → resolveConvertConf e = c) ∧
    (e.options_convert = none → e.data_convert = none →
      ((e.options_scandinavian_miles.getD
          (e.data_scandinavian_miles.getD false) = true →
        resolveConvertConf e = CONF_SCANDINAVIAN_MILES) ∧
      (e.options_scandinavian_miles.getD
          (e.data_scandinavian_miles.getD false) = false →
        resolveConvertConf e = CONF_NO_CONVERSION))) := by
  refine ⟨fun c hc => ?_, fun ho c hc => ?_, fun ho hd => ⟨fun hs => ?_, fun hs => ?_⟩⟩
  · simp [resolveConvertConf, hc]
  · simp [resolveConvertConf, ho, hc]
  · simp [resolveConvertConf, get_convert_conf, ho, hd, hs]
  · simp [resolveConvertConf, get_convert_conf, ho, hd, hs]

/-- Witness for `convert_conf_precedence`: an explicit `convert` option
overrides a set Scandinavian-miles flag, and with no `convert` key the
flag selects the Scandinavian-miles mode. -/
theorem convert_conf_precedence_witness :
    resolveConvertConf ⟨some CONF_IMPERIAL_UNITS, none, some true, none⟩ =
      CONF_IMPERIAL_UNITS ∧
    resolveConvertConf ⟨none, none, some true, none⟩ =
      CONF_SCANDINAVIAN_MILES :=
  ⟨(convert_conf_precedence
      ⟨some CONF_IMPERIAL_UNITS, none, some true, none⟩).1
      CONF_IMPERIAL_UNITS rfl,
   ((convert_conf_precedence ⟨none, none, some true, none⟩).2.2
      rfl rfl).1 rfl⟩

/-- C4: with a successful upstream update, the coordinator's `update`
returns only a listed vehicle whose VIN equals the configured VIN under
case-insensitive (uppercased) comparison, and returns `none` — rather
than raising — exactly when no listed vehicle matches. -/
theorem coordinator_update_selects_by_vin (configuredVin : String)
    (vehicles : List VehicleM) :
    (∀ v, coordinatorUpdate true vehicles (coordinatorVin configuredVin) =
        some v →
      v ∈ vehicles ∧ pyUpper v.vin = pyUpper configuredVin) ∧
    (coordinatorUpdate true vehicles (coordinatorVin configuredVin) =
        none →
      ∀ v ∈ vehicles, pyUpper v.vin ≠ pyUpper configuredVin) ∧
    ((∀ v ∈ vehicles, pyUpper v.vin ≠ pyUpper configuredVin) →
      coordinatorUpdate true vehicles (coordinatorVin configuredVin) =
        none) := by
  refine ⟨fun v hv => ?_, fun hnone v hv => ?_, fun hall => ?_⟩
  · have hv' : vehicles.find? (fun w => pyUpper w.vin == pyUpper configuredVin) =
        some v := by simpa [coordinatorUpdate, coordinatorVin] using hv
    exact ⟨List.mem_of_find?_eq_some hv', by
      have := List.find?_some hv'
      simpa using this⟩
  · have hnone' : vehicles.find? (fun w => pyUpper w.vin == pyUpper configuredVin) =
        none := by simpa [coordinatorUpdate, coordinatorVin] using hnone
    have := List.find?_eq_none.1 hnone' v hv
    simpa using this
  · have : vehicles.find? (fun w => pyUpper w.vin == pyUpper configuredVin) =
        none := by
      refine List.find?_eq_none.2 fun v hv => ?_
      simpa using hall v hv
    simpa [coordinatorUpdate, coordinatorVin] using this

/-- Witness for `coordinator_update_selects_by_vin`: a lowercase
configured VIN matches an uppercase vehicle-list entry, and an unrelated
list yields no match. -/
theorem coordinator_update_selects_by_vin_witness :
    (VehicleM.mk "WVWZZZ1KZAW000001" ∈ [VehicleM.mk "WVWZZZ1KZAW000001"] ∧
      pyUpper (VehicleM.mk "WVWZZZ1KZAW000001").vin = pyUpper "wvwzzz1kzaw000001") ∧
    ∀ v ∈ [VehicleM.mk "AAA"], pyUpper v.vin ≠ pyUpper "bbb" :=
  ⟨(coordinator_update_selects_by_vin "wvwzzz1kzaw000001"
      [VehicleM.mk "WVWZZZ1KZAW000001"]).1
      (VehicleM.mk "WVWZZZ1KZAW000001") (by decide),
   (coordinator_update_selects_by_vin "bbb" [VehicleM.mk "AAA"]).2.1
      (by decide)⟩

/-- C5 (amended): `vehicle_name` returns the policy string itself for a
string policy; for a mapping policy it returns the mapped name when the
case-folded VIN is a key, else the raw VIN, else the empty string; but for
an absent (`None`) policy it returns the empty string only when no VIN is
known and raises `TypeError` when a VIN is present (instead of returning
the raw VIN). -/
theorem vehicle_name_cases (names : NamesConf) (vin : String) :
    (∀ s, names = .str s → vehicle_name names vin = .ok s) ∧
    (∀ m, names = .map m → vin ≠ "" →
      ∀ n, m.lookup (pyLower vin) = some n → vehicle_name names vin = .ok n) ∧
    (∀ m, names = .map m → vin ≠ "" →
      m.lookup (pyLower vin) = none → vehicle_name names vin = .ok vin) ∧
    (∀ m, names = .map m → vin = "" → vehicle_name names vin = .ok "") ∧
    (names = .nothing → vin = "" → vehicle_name names vin = .ok "") ∧
    (names = .nothing → vin ≠ "" → vehicle_name names vin = .typeError) := by
  refine ⟨fun s hs => ?_, fun m hm hv n hn => ?_, fun m hm hv hn => ?_,
    fun m hm hv => ?_, fun hn hv => ?_, fun hn hv => ?_⟩
  · subst hs; simp [vehicle_name]
  · subst hm; simp [vehicle_name, hv, hn]
  · subst hm; simp [vehicle_name, hv, hn]
  · subst hm; simp [vehicle_name, hv]
  · subst hn; simp [vehicle_name, hv]
  · subst hn; simp [vehicle_name, hv]

/-- Witness for `vehicle_name_cases`: the spec's two §8 examples — the
mapping policy with a case-folded key hit, and the plain-string policy. -/
theorem vehicle_name_cases_witness :
    vehicle_name (.map [("vin123", "My Car")]) "VIN123" = .ok "My Car" ∧
    vehicle_name (.str "Fleet Car") "VIN123" = .ok "Fleet Car" :=
  ⟨(vehicle_name_cases (.map [("vin123", "My Car")]) "VIN123").2.1
      [("vin123", "My Car")] rfl (by decide) "My Car" (by decide),
   (vehicle_name_cases (.str "Fleet Car") "VIN123").1 "Fleet Car" rfl⟩

/-- C5 counterexample: with an absent (`None`) naming policy and a known
VIN, `vehicle_name` raises `TypeError` (evaluating `vin.lower() in None`)
instead of returning the raw identifier `"VIN123"`. -/
theorem vehicle_name_none_policy_raises :
    vehicle_name NamesConf.nothing "VIN123" = .typeError ∧
    vehicle_name NamesConf.nothing "VIN123" ≠ .ok "VIN123" := by decide

/-- C6 (amended): the icon property returns the battery icon computed from
the instrument's state and the vehicle's charging flag for attribute key
`battery_level` — and equally for attribute key `charging`, which the code
also special-cases — while every attribute key outside those two returns
the instrument's own icon unchanged. -/
theorem entity_icon_cases (iconForBatteryLevel : Option Int → Bool → String)
    (attr : String) (state : Option Int) (charging : Bool)
    (instrIcon : String) :
    (attr = "battery_level" →
      entityIcon iconForBatteryLevel attr state charging instrIcon =
        iconForBatteryLevel state charging) ∧
    (attr = "charging" →
      entityIcon iconForBatteryLevel attr state charging instrIcon =
        iconForBatteryLevel state charging) ∧
    (attr ≠ "battery_level" → attr ≠ "charging" →
      entityIcon iconForBatteryLevel attr state charging instrIcon =
        instrIcon) := by
  refine ⟨fun h => ?_, fun h => ?_, fun h1 h2 => ?_⟩
  · simp [entityIcon, h]
  · simp [entityIcon, h]
  · simp [entityIcon, h1, h2]

/-- Witness for `entity_icon_cases`: `battery_level` resolves through the
battery-icon helper and an unrelated attribute keeps its own icon. -/
theorem entity_icon_cases_witness :
    entityIcon (fun _ _ => "mdi:battery-50") "battery_level" (some 50) false
        "mdi:gauge" = "mdi:battery-50" ∧
    entityIcon (fun _ _ => "mdi:battery-50") "odometer" (some 50) false
        "mdi:gauge" = "mdi:gauge" :=
  ⟨(entity_icon_cases (fun _ _ => "mdi:battery-50") "battery_level"
      (some 50) false "mdi:gauge").1 rfl,
   (entity_icon_cases (fun _ _ => "mdi:battery-50") "odometer"
      (some 50) false "mdi:gauge").2.2 (by decide) (by decide)⟩

/-- C6 counterexample: an instrument with attribute key `charging` — an
attribute key other than `battery_level` — does not get its own icon back:
the code routes it through the battery-icon helper as well. -/
theorem entity_icon_charging_not_own_icon :
    entityIcon (fun _ _ => "mdi:battery-charging") "charging" (some 50) true
        "mdi:ev-station" = "mdi:battery-charging" ∧
    entityIcon (fun _ _ => "mdi:battery-charging") "charging" (some 50) true
        "mdi:ev-station" ≠ "mdi:ev-station" := by decide

/-- C7: `unique_id` is the hyphen-joined construction-time triple and is
therefore identical for any two instrument snapshots — in particular
across two refresh cycles that replaced the instrument objects. -/
theorem entity_unique_id_stable (vin component attributeKey : String)
    (snapshot1 snapshot2 : List InstrumentM) :
    entityUniqueId ⟨vin, component, attributeKey, snapshot1⟩ =
      vin ++ "-" ++ component ++ "-" ++ attributeKey ∧
    entityUniqueId ⟨vin, component, attributeKey, snapshot1⟩ =
      entityUniqueId ⟨vin, component, attributeKey, snapshot2⟩ :=
  ⟨rfl, rfl⟩

/-- Helper for the instrument-lookup theorem: scanning a list with
`find?` yields a member matching the triple exactly, or reports that no
member matches. -/
theorem find_instr_spec (l : List InstrumentM) (vin component attr : String) :
    (∀ i, l.find? (instrMatches vin component attr) = some i →
      i ∈ l ∧ i.vehicleVin = vin ∧ i.component = component ∧ i.attr = attr) ∧
    (l.find? (instrMatches vin component attr) = none →
      ∀ i ∈ l, ¬(i.vehicleVin = vin ∧ i.component = component ∧ i.attr = attr)) := by
  constructor
  · intro i hi
    refine ⟨List.mem_of_find?_eq_some hi, ?_⟩
    have := List.find?_some hi
    simpa [instrMatches, and_assoc] using this
  · intro hn i hi
    have := List.find?_eq_none.1 hn i hi
    simpa [instrMatches, and_assoc] using this

/-- C8 (amended): whenever the current snapshot is an actual collection —
no coordinator (static instrument set) or a coordinator whose `data` is a
list, empty or not — the lookup linearly scans it and returns the
exactly-matching instrument or not-found without raising; but when a
coordinator exists whose `data` is still unset (`None`), the scan raises
`TypeError` instead of returning not-found. -/
theorem data_instrument_lookup (staticInstruments snapshot : List InstrumentM)
    (vin component attr : String) :
    (dataInstrument none staticInstruments vin component attr ≠ .typeError) ∧
    (∀ i, dataInstrument none staticInstruments vin component attr = .found i →
      i ∈ staticInstruments ∧
        i.vehicleVin = vin ∧ i.component = component ∧ i.attr = attr) ∧
    (dataInstrument none staticInstruments vin component attr = .notFound →
      ∀ i ∈ staticInstruments,
        ¬(i.vehicleVin = vin ∧ i.component = component ∧ i.attr = attr)) ∧
    (dataInstrument (some (some snapshot)) staticInstruments vin component attr ≠
      .typeError) ∧
    (∀ i, dataInstrument (some (some snapshot)) staticInstruments vin component
        attr = .found i →
      i ∈ snapshot ∧
        i.vehicleVin = vin ∧ i.component = component ∧ i.attr = attr) ∧
    (dataInstrument (some (some snapshot)) staticInstruments vin component attr =
        .notFound →
      ∀ i ∈ snapshot,
        ¬(i.vehicleVin = vin ∧ i.component = component ∧ i.attr = attr)) ∧
    dataInstrument (some none) staticInstruments vin component attr =
      .typeError := by
  refine ⟨?_, fun i hi => ?_, fun hn => ?_, ?_, fun i hi => ?_, fun hn => ?_, rfl⟩
  · unfold dataInstrument
    cases h : staticInstruments.find? (instrMatches vin component attr) <;> simp [h]
  · have h : staticInstruments.find? (instrMatches vin component attr) = some i := by
      unfold dataInstrument at hi
      cases h : staticInstruments.find? (instrMatches vin component attr) <;>
        simp_all
    exact (find_instr_spec staticInstruments vin component attr).1 i h
  · have h : staticInstruments.find? (instrMatches vin component attr) = none := by
      unfold dataInstrument at hn
      cases h : staticInstruments.find? (instrMatches vin component attr) <;>
        simp_all
    exact (find_instr_spec staticInstruments vin component attr).2 h
  · unfold dataInstrument
    cases h : snapshot.find? (instrMatches vin component attr) <;> simp [h]
  · have h : snapshot.find? (instrMatches vin component attr) = some i := by
      unfold dataInstrument at hi
      cases h : snapshot.find? (instrMatches vin component attr) <;> simp_all
    exact (find_instr_spec snapshot vin component attr).1 i h
  · have h : snapshot.find? (instrMatches vin component attr) = none := by
      unfold dataInstrument at hn
      cases h : snapshot.find? (instrMatches vin component attr) <;> simp_all
    exact (find_instr_spec snapshot vin component attr).2 h

/-- Witness for `data_instrument_lookup`: a concrete hit in a coordinator
snapshot and a concrete miss over the static set. -/
theorem data_instrument_lookup_witness :
    (InstrumentM.mk "VIN" "sensor" "odometer" "mdi:gauge" (some 7) ∈
        [InstrumentM.mk "VIN" "sensor" "odometer" "mdi:gauge" (some 7)] ∧
      (InstrumentM.mk "VIN" "sensor" "odometer" "mdi:gauge"
          (some 7)).vehicleVin = "VIN" ∧
      (InstrumentM.mk "VIN" "sensor" "odometer" "mdi:gauge"
          (some 7)).component = "sensor" ∧
      (InstrumentM.mk "VIN" "sensor" "odometer" "mdi:gauge"
          (some 7)).attr = "odometer") ∧
    ∀ i ∈ [InstrumentM.mk "VIN" "sensor" "odometer" "mdi:gauge" (some 7)],
      ¬(i.vehicleVin = "OTHER" ∧ i.component = "sensor" ∧ i.attr = "odometer") :=
  ⟨(data_instrument_lookup []
      [InstrumentM.mk "VIN" "sensor" "odometer" "mdi:gauge" (some 7)]
      "VIN" "sensor" "odometer").2.2.2.2.1
      (InstrumentM.mk "VIN" "sensor" "odometer" "mdi:gauge" (some 7))
      (by decide),
   (data_instrument_lookup
      [InstrumentM.mk "VIN" "sensor" "odometer" "mdi:gauge" (some 7)] []
      "OTHER" "sensor" "odometer").2.2.1 (by decide)⟩

/-- C8 counterexample: with a coordinator present whose `data` is still
unset (`None`), the lookup raises `TypeError` — it neither returns a
match nor a not-found result. -/
theorem data_instrument_unset_snapshot_raises :
    dataInstrument (some none) [] "VIN" "sensor" "odometer" = .typeError ∧
    dataInstrument (some none) [] "VIN" "sensor" "odometer" ≠ .notFound := by
  decide

/-- C2 (amended): the update-schedule and update-profile schemas reject
any payload whose `device_id` is absent or is not a 32-character string,
and reject a payload missing another required field (`timer_id`); the
set-charger-max-current schema — and also the set-timer-basic-settings
schema, whose `device_id` is declared `vol.Optional` — accepts payloads
with the device identifier absent, acceptance then depending only on the
validity of the other declared fields that are present. -/
theorem schema_device_id_requirements (payload : List (String × SVal)) :
    (payload.lookup "device_id" = none →
      schemaAccepts SERVICE_UPDATE_SCHEDULE_SCHEMA payload = false) ∧
    (payload.lookup "device_id" = none →
      schemaAccepts SERVICE_UPDATE_PROFILE_SCHEMA payload = false) ∧
    (∀ v, payload.lookup "device_id" = some v → (cvString v).length ≠ 32 →
      schemaAccepts SERVICE_UPDATE_SCHEDULE_SCHEMA payload = false) ∧
    (∀ v, payload.lookup "device_id" = some v → (cvString v).length ≠ 32 →
      schemaAccepts SERVICE_UPDATE_PROFILE_SCHEMA payload = false) ∧
    (payload.lookup "timer_id" = none →
      schemaAccepts SERVICE_UPDATE_SCHEDULE_SCHEMA payload = false) ∧
    (payload.lookup "device_id" = none →
      (schemaAccepts SERVICE_SET_CHARGER_MAX_CURRENT_SCHEMA payload = true ↔
        ∀ v, payload.lookup "max_current" = some v →
          inIntsOrStrs [0, 5, 10, 13, 16, 32]
            ["0", "5", "10", "13", "16", "32", "max"] v = true)) ∧
    (payload.lookup "device_id" = none →
      (schemaAccepts SERVICE_SET_TIMER_BASIC_SETTINGS_SCHEMA payload = true ↔
        ∀ v, payload.lookup "min_level" = some v →
          inInts [0, 10, 20, 30, 40, 50, 60, 70, 80, 90, 100] v = true)) := by
  refine ⟨fun h => ?_, fun h => ?_, fun v h hlen => ?_, fun v h hlen => ?_,
    fun h => ?_, fun h => ?_, fun h => ?_⟩
  · simp [schemaAccepts, SERVICE_UPDATE_SCHEDULE_SCHEMA, h]
  · simp [schemaAccepts, SERVICE_UPDATE_PROFILE_SCHEMA, h]
  · simp [schemaAccepts, SERVICE_UPDATE_SCHEDULE_SCHEMA, h, deviceIdOk, hlen]
  · simp [schemaAccepts, SERVICE_UPDATE_PROFILE_SCHEMA, h, deviceIdOk, hlen]
  · simp [schemaAccepts, SERVICE_UPDATE_SCHEDULE_SCHEMA, h]
  · simp only [schemaAccepts, SERVICE_SET_CHARGER_MAX_CURRENT_SCHEMA,
      List.all_cons, List.all_nil, h]
    cases hm : payload.lookup "max_current" <;> simp [hm]
  · simp only [schemaAccepts, SERVICE_SET_TIMER_BASIC_SETTINGS_SCHEMA,
      List.all_cons, List.all_nil, h]
    cases hm : payload.lookup "min_level" <;>
      cases hc : payload.lookup "target_temperature_celsius" <;>
      cases hf : payload.lookup "target_temperature_fahrenheit" <;>
      simp [hm, hc, hf, stringOrPositiveIntOk]

/-- Witness for `schema_device_id_requirements`: omitting `device_id`
rejects an update-schedule call, omitting `timer_id` rejects one even with
a valid `device_id`, and a set-charger call with no `device_id` and a
valid `max_current` is accepted. -/
theorem schema_device_id_requirements_witness :
    schemaAccepts SERVICE_UPDATE_SCHEDULE_SCHEMA [("timer_id", SVal.int 1)] =
      false ∧
    schemaAccepts SERVICE_UPDATE_SCHEDULE_SCHEMA
      [("device_id", SVal.str "00000000000000000000000000000000")] = false ∧
    schemaAccepts SERVICE_SET_CHARGER_MAX_CURRENT_SCHEMA
      [("max_current", SVal.int 16)] = true :=
  ⟨(schema_device_id_requirements [("timer_id", SVal.int 1)]).1 (by decide),
   (schema_device_id_requirements
      [("device_id", SVal.str "00000000000000000000000000000000")]).2.2.2.2.1
      (by decide),
   ((schema_device_id_requirements [("max_current", SVal.int 16)]).2.2.2.2.2.1
      (by decide)).2 (by decide)⟩

/-- C2 counterexample: a set-timer-basic-settings payload lacking any
device identifier is accepted by the schema (its `device_id` is
`vol.Optional`), contradicting the claim that this operation rejects
calls without a 32-character device identifier. -/
theorem set_timer_schema_accepts_without_device_id :
    schemaAccepts SERVICE_SET_TIMER_BASIC_SETTINGS_SCHEMA
      [("min_level", SVal.int 50)] = true ∧
    schemaAccepts SERVICE_SET_TIMER_BASIC_SETTINGS_SCHEMA [] = true := by
  decide

end VWCarnet
